import Mathlib

/-!
Shallow embedding of `src/middleware.ts` (a Next.js request-time access
guard for a documentation site) and proofs about its decision logic.

The middleware classifies the request path (bypass / guarded / unguarded),
and for guarded paths makes one outbound `GET /api/users/me` call, unwraps
the JSON response envelope into a candidate user record, and decides
between pass-through, redirect-to-login, and 403 Forbidden.

The embedding is explicit about effects: the network is a function
(oracle) from the outbound request actually constructed to the behavior
of the identity endpoint, and `middleware` returns both the verdict and
the list of outbound calls it made, so "no call is made" is provable.
-/

namespace RemoteKP

/-- JSON values as produced by `response.json()` (JSON.parse never yields
`undefined`, so that JS value is not modelled; objects are association
lists whose keys are the effective bindings after parsing). -/
inductive Json where
  | null : Json
  | bool : Bool → Json
  | num : Int → Json
  | str : String → Json
  | arr : List Json → Json
  | obj : List (String × Json) → Json
deriving Repr, Inhabited

/-- JS truthiness of a JSON value (`if (x)`): `null`, `false`, `0` and
`""` are falsy; arrays and objects are always truthy. -/
def Json.truthy : Json → Bool
  | .null => false
  | .bool b => b
  | .num n => n != 0
  | .str s => s != ""
  | .arr _ => true
  | .obj _ => true

/-- JS `typeof x === "object"`: true for `null`, arrays and plain
objects, false for booleans, numbers and strings. -/
def Json.isObjectType : Json → Bool
  | .null => true
  | .arr _ => true
  | .obj _ => true
  | _ => false

/-- Property access combined with the `in` test: `some v` when the key is
present on a plain object (JS `key in x`), `none` otherwise (arrays and
primitives have none of the keys this middleware probes). -/
def Json.getField : Json → String → Option Json
  | .obj fields, k => fields.lookup k
  | _, _ => none

/-- JS `("k" in x)` for the keys this middleware probes. -/
def Json.hasField (j : Json) (k : String) : Bool :=
  (j.getField k).isSome

/-- JS `("k" in x) && x.k` — the key is present and its value truthy
(an absent key reads as `undefined`, which is falsy). -/
def fieldTruthy (d : Json) (k : String) : Bool :=
  match d.getField k with
  | some v => v.truthy
  | none => false

/-- Envelope unwrapping, `src/middleware.ts` lines 78–87: start from the
parsed body; if it is a truthy object, a truthy `user` field wins, else
the first element of a non-empty-array `docs` field, else a truthy `doc`
field, else the parsed body itself. -/
def unwrapCandidate (responseData : Json) : Json :=
  if responseData.truthy && responseData.isObjectType then
    if fieldTruthy responseData "user" then
      (responseData.getField "user").getD Json.null
    else
      match responseData.getField "docs" with
      | some (Json.arr (x :: _)) => x
      | _ =>
        if fieldTruthy responseData "doc" then
          (responseData.getField "doc").getD Json.null
        else responseData
  else responseData

/-- `src/middleware.ts` line 90: `!(!user || typeof user !== "object" ||
!("id" in user))` — the candidate is truthy, of object type, and has an
`id` key (the value of `id` is not inspected). -/
def isValidUser (user : Json) : Bool :=
  user.truthy && user.isObjectType && user.hasField "id"

/-- `src/middleware.ts` lines 99–100: `user.role === "owner" ||
user.role === "admin"` — strict equality against the two exact strings;
a missing, null, non-string or differently-cased role fails. -/
def hasAdminAccess (user : Json) : Bool :=
  match user.getField "role" with
  | some (Json.str s) => s == "owner" || s == "admin"
  | _ => false

/-- `response.ok`: HTTP status in the 200–299 range. -/
def statusOk (status : Nat) : Bool :=
  200 ≤ status && status ≤ 299

/-- Character-level prefix test (second argument is the pattern). -/
def charsStartWith : List Char → List Char → Bool
  | _, [] => true
  | [], _ :: _ => false
  | c :: s, p :: ps => c == p && charsStartWith s ps

/-- Character-level substring occurrence test. -/
def charsContain : List Char → List Char → Bool
  | [], pat => charsStartWith [] pat
  | c :: rest, pat => charsStartWith (c :: rest) pat || charsContain rest pat

/-- JS `s.startsWith(pat)`. -/
def strStartsWith (s pat : String) : Bool :=
  charsStartWith s.data pat.data

/-- JS `s.includes(pat)`: `pat` occurs as a contiguous substring of `s`. -/
def strIncludes (s pat : String) : Bool :=
  charsContain s.data pat.data

/-- `src/middleware.ts` line 66: `contentType && contentType.includes
("application/json")` — the header is present, truthy (non-empty) and
contains the substring `application/json` anywhere. -/
def contentTypeIsJson : Option String → Bool
  | none => false
  | some ct => ct != "" && strIncludes ct "application/json"

/-- `src/middleware.ts` lines 9–15: paths skipped before any other
classification (admin UI, own API, framework assets, favicon, demo
video). -/
def isBypassPath (pathname : String) : Bool :=
  strStartsWith pathname "/admin" ||
  strStartsWith pathname "/api" ||
  strStartsWith pathname "/_next" ||
  strStartsWith pathname "/favicon.ico" ||
  strStartsWith pathname "/demo.mp4"

/-- `src/middleware.ts` lines 20–26: the guarded ("fumadocs") routes —
exact `/`, or a prefix among `/docs`, `/llms.txt`, `/llms.mdx`,
`/llms-full.txt`, `/docs-og`. -/
def isFumadocsRoute (pathname : String) : Bool :=
  strStartsWith pathname "/docs" ||
  pathname == "/" ||
  strStartsWith pathname "/llms.txt" ||
  strStartsWith pathname "/llms.mdx" ||
  strStartsWith pathname "/llms-full.txt" ||
  strStartsWith pathname "/docs-og"

/-- A path is effectively guarded when it is not bypassed and matches
the fumadocs rules. -/
def isGuarded (pathname : String) : Bool :=
  !(isBypassPath pathname) && isFumadocsRoute pathname

/-- The inbound request as the middleware reads it: the URL components of
`request.nextUrl` and the two headers the code consults. -/
structure Request where
  protocol : String
  host : String
  port : String
  pathname : String
  search : String
  cookie : Option String
  userAgent : Option String
deriving Repr, DecidableEq

/-- The outbound identity-check request as constructed by
`src/middleware.ts` lines 36–54: `cookie = none` means the header was not
set at all (line 39 sets it only when present). -/
structure OutboundRequest where
  method : String
  protocol : String
  host : String
  port : String
  pathname : String
  search : String
  cookie : Option String
  userAgent : String
deriving Repr, DecidableEq

/-- Lines 38–41: `if (cookieHeader) headers.set("cookie", cookieHeader)`
— the cookie header is set only when the inbound value is truthy, so an
absent header (`none`) and a present-but-empty header (`some ""`, falsy
in JS) are both omitted; any other value is forwarded verbatim. -/
def forwardedCookie : Option String → Option String
  | some c => if c != "" then some c else none
  | none => none

/-- Lines 37–53: clone the request URL, replace only the path with
`/api/users/me`, clear the query, forward `cookie` only when truthy
(line 39) and `user-agent` with default `""`. -/
def outboundOf (request : Request) : OutboundRequest :=
  { method := "GET"
    protocol := request.protocol
    host := request.host
    port := request.port
    pathname := "/api/users/me"
    search := ""
    cookie := forwardedCookie request.cookie
    userAgent := request.userAgent.getD "" }

/-- Behavior of the identity endpoint for one call: either the `fetch`
promise rejects (transport error), or a response arrives with a status,
an optional `content-type` header, and a body whose JSON parse either
fails (`none`, i.e. `response.json()` throws) or yields a value. -/
inductive FetchBehavior where
  | throwsAtFetch : FetchBehavior
  | returns : Nat → Option String → Option Json → FetchBehavior
deriving Repr

/-- The middleware's final response: pass-through (`NextResponse.next()`),
a redirect whose location has the given pathname and a `redirect` query
parameter carrying the given original path, or a plain response with the
given body and status. -/
inductive Verdict where
  | next : Verdict
  | redirect : String → String → Verdict
  | forbidden : String → Nat → Verdict
deriving Repr, DecidableEq

/-- The body of the `try` block of `src/middleware.ts` lines 35–119 for a
guarded path, as a function of what the identity endpoint did. A `fetch`
rejection or a `response.json()` throw lands in the `catch` (lines
113–119), which redirects, exactly like the explicit deny branches. -/
def decideAuth (pathname : String) : FetchBehavior → Verdict
  | FetchBehavior.throwsAtFetch =>
    Verdict.redirect "/admin/login" pathname
  | FetchBehavior.returns status contentType body =>
    if !(statusOk status) || status == 401 || status == 403 then
      Verdict.redirect "/admin/login" pathname
    else if !(contentTypeIsJson contentType) then
      Verdict.redirect "/admin/login" pathname
    else
      match body with
      | none =>
        Verdict.redirect "/admin/login" pathname
      | some responseData =>
        let user := unwrapCandidate responseData
        if !(isValidUser user) then
          Verdict.redirect "/admin/login" pathname
        else if !(hasAdminAccess user) then
          Verdict.forbidden "Forbidden: Admin or Owner access required" 403
        else
          Verdict.next

/-- The `middleware` function of `src/middleware.ts`, evaluated against
an identity endpoint modelled as `fetchOracle`. Returns the verdict
together with the list of outbound calls made, in order. -/
def middleware (request : Request) (fetchOracle : OutboundRequest → FetchBehavior) :
    Verdict × List OutboundRequest :=
  if isBypassPath request.pathname then
    (Verdict.next, [])
  else if !(isFumadocsRoute request.pathname) then
    (Verdict.next, [])
  else
    (decideAuth request.pathname (fetchOracle (outboundOf request)), [outboundOf request])

/-- Spec §7 taxonomy: every verification failure mode — transport throw,
non-successful status (including 401/403), non-JSON content type, parse
failure, invalid candidate — folded into one predicate. -/
def verificationFails : FetchBehavior → Bool
  | FetchBehavior.throwsAtFetch => true
  | FetchBehavior.returns status contentType body =>
    !(statusOk status) || status == 401 || status == 403 ||
    !(contentTypeIsJson contentType) ||
    (match body with
     | none => true
     | some responseData => !(isValidUser (unwrapCandidate responseData)))

/-- Spec §7 `InsufficientRole`: verification reached a valid user whose
role is not admin/owner. -/
def insufficientRole : FetchBehavior → Bool
  | FetchBehavior.returns status contentType (some responseData) =>
    statusOk status && contentTypeIsJson contentType &&
    isValidUser (unwrapCandidate responseData) &&
    !(hasAdminAccess (unwrapCandidate responseData))
  | _ => false

/-! ### Helper lemmas -/

theorem isGuarded_elim {pathname : String} (h : isGuarded pathname = true) :
    isBypassPath pathname = false ∧ isFumadocsRoute pathname = true := by
  simpa [isGuarded, Bool.and_eq_true, Bool.not_eq_true'] using h

/-- On a guarded path the middleware makes exactly one outbound call and
returns `decideAuth` applied to the oracle's answer to that call. -/
theorem middleware_guarded (request : Request)
    (fetchOracle : OutboundRequest → FetchBehavior)
    (hg : isGuarded request.pathname = true) :
    middleware request fetchOracle =
      (decideAuth request.pathname (fetchOracle (outboundOf request)),
       [outboundOf request]) := by
  obtain ⟨hb, hf⟩ := isGuarded_elim hg
  simp [middleware, hb, hf]

/-- A successful (2xx) status is neither 401 nor 403. -/
theorem statusOk_ne_401_403 {status : Nat} (h : statusOk status = true) :
    (status == 401) = false ∧ (status == 403) = false := by
  simp only [statusOk, Bool.and_eq_true, decide_eq_true_eq] at h
  constructor <;> simp only [beq_eq_false_iff_ne, ne_eq] <;> omega

/-- `decideAuth` on a clean response (2xx, JSON, parsed, valid user) is
decided purely by the role check. -/
theorem decideAuth_clean (pathname : String) (status : Nat)
    (contentType : Option String) (responseData : Json)
    (hok : statusOk status = true)
    (hct : contentTypeIsJson contentType = true)
    (hvalid : isValidUser (unwrapCandidate responseData) = true) :
    decideAuth pathname (FetchBehavior.returns status contentType (some responseData)) =
      (if hasAdminAccess (unwrapCandidate responseData) then Verdict.next
       else Verdict.forbidden "Forbidden: Admin or Owner access required" 403) := by
  obtain ⟨h401, h403⟩ := statusOk_ne_401_403 hok
  simp only [decideAuth, hok, h401, h403, hct, hvalid, Bool.not_true, Bool.or_self,
    Bool.or_false, Bool.false_or, if_false]
  cases hrole : hasAdminAccess (unwrapCandidate responseData) <;> simp

/-- `decideAuth` maps every failure mode to the login redirect. -/
theorem decideAuth_fail (pathname : String) (behavior : FetchBehavior)
    (h : verificationFails behavior = true) :
    decideAuth pathname behavior = Verdict.redirect "/admin/login" pathname := by
  cases behavior with
  | throwsAtFetch => rfl
  | returns status contentType body =>
    simp only [verificationFails, Bool.or_eq_true] at h
    simp only [decideAuth]
    rcases h with ((((hs | hs) | hs) | hs) | hs)
    · simp [hs]
    · simp [hs]
    · simp [hs]
    · simp [hs]
    · cases body with
      | none => split <;> [rfl; split <;> rfl]
      | some responseData =>
        simp only [Bool.not_eq_true'] at hs
        simp [hs]

/-- `decideAuth` on an insufficient-role outcome is the fixed 403. -/
theorem decideAuth_insufficient (pathname : String) (behavior : FetchBehavior)
    (h : insufficientRole behavior = true) :
    decideAuth pathname behavior =
      Verdict.forbidden "Forbidden: Admin or Owner access required" 403 := by
  cases behavior with
  | throwsAtFetch => simp [insufficientRole] at h
  | returns status contentType body =>
    cases body with
    | none => simp [insufficientRole] at h
    | some responseData =>
      simp only [insufficientRole, Bool.and_eq_true, Bool.not_eq_true'] at h
      obtain ⟨⟨⟨hok, hct⟩, hvalid⟩, hrole⟩ := h
      rw [decideAuth_clean pathname status contentType responseData hok hct hvalid, hrole]
      simp

/-- The exhaustive case split on the verdict of `decideAuth`. -/
theorem decideAuth_cases (pathname : String) (behavior : FetchBehavior) :
    decideAuth pathname behavior = Verdict.next ∨
    decideAuth pathname behavior = Verdict.redirect "/admin/login" pathname ∨
    decideAuth pathname behavior =
      Verdict.forbidden "Forbidden: Admin or Owner access required" 403 := by
  cases behavior with
  | throwsAtFetch => right; left; rfl
  | returns status contentType body =>
    simp only [decideAuth]
    split
    · right; left; rfl
    · split
      · right; left; rfl
      · split
        · right; left; rfl
        · split
          · right; left; rfl
          · split
            · right; right; rfl
            · left; rfl

/-! ### Concrete fixtures for witnesses and counterexamples -/

/-- A typical guarded request used as concrete test input. -/
def docsRequest : Request :=
  { protocol := "https:"
    host := "docs.example.com"
    port := ""
    pathname := "/docs/intro"
    search := ""
    cookie := some "payload-token=abc"
    userAgent := some "Mozilla/5.0" }

/-- An identity endpoint that answers every call the same way. -/
def constOracle (behavior : FetchBehavior) : OutboundRequest → FetchBehavior :=
  fun _ => behavior

/-- A clean `{user: {id, role: admin}}` envelope. -/
def adminUserBody : Json :=
  Json.obj [("user", Json.obj [("id", Json.str "42"), ("role", Json.str "admin")])]

/-- A `{docs: [{id, role: editor}]}` envelope: valid user, wrong role. -/
def editorUserBody : Json :=
  Json.obj [("docs", Json.arr [Json.obj [("id", Json.str "7"), ("role", Json.str "editor")]])]

/-- A bare user whose role differs from `"admin"` only in case. -/
def mixedCaseRoleBody : Json :=
  Json.obj [("id", Json.str "9"), ("role", Json.str "Admin")]

/-- A bare user with an empty `id` and an admin role. -/
def emptyIdAdminBody : Json :=
  Json.obj [("id", Json.str ""), ("role", Json.str "admin")]

/-- A clean completion of the identity call (2xx, JSON, parsed body,
valid candidate) — the only gate left after it is the role check. -/
theorem verificationFails_false_elim (behavior : FetchBehavior)
    (h : verificationFails behavior = false) :
    ∃ status contentType responseData,
      behavior = FetchBehavior.returns status contentType (some responseData) ∧
      statusOk status = true ∧ contentTypeIsJson contentType = true ∧
      isValidUser (unwrapCandidate responseData) = true := by
  cases behavior with
  | throwsAtFetch => simp [verificationFails] at h
  | returns status contentType body =>
    cases body with
    | none => simp [verificationFails] at h
    | some responseData =>
      simp only [verificationFails, Bool.or_eq_false_iff, Bool.not_eq_false',
        Bool.not_eq_false] at h
      exact ⟨status, contentType, responseData, rfl, h.1.1.1.1, h.1.2, h.2⟩

/-- The role check of line 100 spelled out: it passes exactly when the
`role` field is the string `"owner"` or the string `"admin"`. -/
theorem hasAdminAccess_eq_true_iff (user : Json) :
    hasAdminAccess user = true ↔
      user.getField "role" = some (Json.str "owner") ∨
      user.getField "role" = some (Json.str "admin") := by
  rcases hr : user.getField "role" with _ | v
  · simp [hasAdminAccess, hr]
  · rcases v with _ | b | n | s | l | f <;> simp [hasAdminAccess, hr]

/-! ### Claims -/

/-- C3: every path starting with one of the five bypass prefixes, and
every path that is neither bypassed nor guarded, is passed through with
verdict Allow and no outbound call, whatever the cookie, user-agent and
identity endpoint do. -/
theorem bypass_or_unguarded_allows_without_call (request : Request)
    (fetchOracle : OutboundRequest → FetchBehavior)
    (h : isBypassPath request.pathname = true ∨
         (isBypassPath request.pathname = false ∧
          isFumadocsRoute request.pathname = false)) :
    middleware request fetchOracle = (Verdict.next, []) := by
  rcases h with hb | ⟨hb, hf⟩
  · simp [middleware, hb]
  · simp [middleware, hb, hf]

/-- C3 witness: `/api/users` (bypass) and `/about` (unguarded) are both
passed through with no call, even against a throwing endpoint. -/
theorem bypass_or_unguarded_allows_without_call_witness :
    middleware { docsRequest with pathname := "/api/users" }
        (constOracle FetchBehavior.throwsAtFetch) = (Verdict.next, []) ∧
    middleware { docsRequest with pathname := "/about" }
        (constOracle FetchBehavior.throwsAtFetch) = (Verdict.next, []) :=
  ⟨bypass_or_unguarded_allows_without_call _ _ (Or.inl rfl),
   bypass_or_unguarded_allows_without_call _ _ (Or.inr ⟨rfl, rfl⟩)⟩

/-- `headers.set("cookie", ...)` is guarded by truthiness, so no call
ever carries an empty cookie header. -/
theorem forwardedCookie_ne_empty (cookie : Option String) :
    forwardedCookie cookie ≠ some "" := by
  rcases cookie with _ | c
  · simp [forwardedCookie]
  · by_cases h : c = ""
    · simp [forwardedCookie, h]
    · simp [forwardedCookie, h]

/-- C7: a guarded request makes exactly one outbound call: a GET to
`/api/users/me` with cleared query, protocol/host/port inherited from
the request, the user-agent forwarded with default `""`, and the cookie
header forwarded verbatim when present and non-empty, omitted entirely
when absent, and never sent as an empty header. -/
theorem guarded_single_outbound_call (request : Request)
    (fetchOracle : OutboundRequest → FetchBehavior)
    (hg : isGuarded request.pathname = true) :
    (middleware request fetchOracle).2 =
      [{ method := "GET"
         protocol := request.protocol
         host := request.host
         port := request.port
         pathname := "/api/users/me"
         search := ""
         cookie := forwardedCookie request.cookie
         userAgent := request.userAgent.getD "" }] ∧
    (∀ c, request.cookie = some c → c ≠ "" →
      forwardedCookie request.cookie = some c) ∧
    (request.cookie = none → forwardedCookie request.cookie = none) ∧
    (∀ call, call ∈ (middleware request fetchOracle).2 →
      call.cookie ≠ some "") := by
  rw [middleware_guarded request fetchOracle hg]
  refine ⟨rfl, ?_, ?_, ?_⟩
  · intro c hc hne
    simp [forwardedCookie, hc, hne]
  · intro hc
    rw [hc]
    rfl
  · intro call hcall
    rw [List.mem_singleton] at hcall
    rw [hcall]
    exact forwardedCookie_ne_empty request.cookie

/-- C7 witness: the concrete docs request produces exactly one call with
its cookie forwarded verbatim, and the same request with a
present-but-empty cookie header produces the call with no cookie header
at all. -/
theorem guarded_single_outbound_call_witness :
    (middleware docsRequest (constOracle FetchBehavior.throwsAtFetch)).2 =
      [{ method := "GET"
         protocol := "https:"
         host := "docs.example.com"
         port := ""
         pathname := "/api/users/me"
         search := ""
         cookie := some "payload-token=abc"
         userAgent := "Mozilla/5.0" }] ∧
    (middleware { docsRequest with cookie := some "" }
        (constOracle FetchBehavior.throwsAtFetch)).2 =
      [{ method := "GET"
         protocol := "https:"
         host := "docs.example.com"
         port := ""
         pathname := "/api/users/me"
         search := ""
         cookie := none
         userAgent := "Mozilla/5.0" }] :=
  ⟨(guarded_single_outbound_call docsRequest
      (constOracle FetchBehavior.throwsAtFetch) rfl).1,
   (guarded_single_outbound_call { docsRequest with cookie := some "" }
      (constOracle FetchBehavior.throwsAtFetch) rfl).1⟩

/-- C8: for every request and every endpoint behavior (throw, any
status, any content type, any body) the middleware returns exactly one
of the three defined responses — pass-through, redirect to the login
path, or the fixed 403 — and never propagates an exception (it is a
total function). -/
theorem middleware_total_three_verdicts (request : Request)
    (fetchOracle : OutboundRequest → FetchBehavior) :
    (middleware request fetchOracle).1 = Verdict.next ∨
    (middleware request fetchOracle).1 =
      Verdict.redirect "/admin/login" request.pathname ∨
    (middleware request fetchOracle).1 =
      Verdict.forbidden "Forbidden: Admin or Owner access required" 403 := by
  by_cases hb : isBypassPath request.pathname = true
  · left; simp [middleware, hb]
  · rw [Bool.not_eq_true] at hb
    by_cases hf : isFumadocsRoute request.pathname = true
    · have := middleware_guarded request fetchOracle (by simp [isGuarded, hb, hf])
      rw [this]
      exact decideAuth_cases request.pathname (fetchOracle (outboundOf request))
    · rw [Bool.not_eq_true] at hf
      left; simp [middleware, hb, hf]

/-- C9: the verdict is a deterministic function of the request and of
the identity endpoint's answer to the one outbound call: two endpoint
behaviors that agree on that call give identical results, and no state
is carried across evaluations. -/
theorem middleware_deterministic (request : Request)
    (oracle₁ oracle₂ : OutboundRequest → FetchBehavior)
    (h : oracle₁ (outboundOf request) = oracle₂ (outboundOf request)) :
    middleware request oracle₁ = middleware request oracle₂ := by
  simp only [middleware, h]

/-- C1: for a guarded request the verdict is Allow (pass-through) if and
only if the identity call completed with a successful status, a JSON
content type, a body that parsed, and an unwrapped candidate that is a
valid user record whose role is exactly owner or admin; no failure mode
of verification ever produces Allow. -/
theorem guarded_allow_iff_clean_admin (request : Request)
    (fetchOracle : OutboundRequest → FetchBehavior)
    (hg : isGuarded request.pathname = true) :
    (middleware request fetchOracle).1 = Verdict.next ↔
      ∃ status contentType responseData,
        fetchOracle (outboundOf request) =
          FetchBehavior.returns status contentType (some responseData) ∧
        statusOk status = true ∧
        contentTypeIsJson contentType = true ∧
        isValidUser (unwrapCandidate responseData) = true ∧
        hasAdminAccess (unwrapCandidate responseData) = true := by
  rw [middleware_guarded request fetchOracle hg]
  dsimp only
  constructor
  · intro h
    by_cases hfail : verificationFails (fetchOracle (outboundOf request)) = true
    · rw [decideAuth_fail _ _ hfail] at h
      exact absurd h (by simp)
    · rw [Bool.not_eq_true] at hfail
      obtain ⟨status, contentType, responseData, heq, hok, hct, hvalid⟩ :=
        verificationFails_false_elim _ hfail
      by_cases hrole : hasAdminAccess (unwrapCandidate responseData) = true
      · exact ⟨status, contentType, responseData, heq, hok, hct, hvalid, hrole⟩
      · rw [Bool.not_eq_true] at hrole
        have hins : insufficientRole (fetchOracle (outboundOf request)) = true := by
          rw [heq]; simp [insufficientRole, hok, hct, hvalid, hrole]
        rw [decideAuth_insufficient _ _ hins] at h
        exact absurd h (by simp)
  · rintro ⟨status, contentType, responseData, heq, hok, hct, hvalid, hrole⟩
    rw [heq, decideAuth_clean _ _ _ _ hok hct hvalid]
    simp [hrole]

/-- C1 witness: a 200 JSON response with `{user: {id, role: admin}}` is
allowed through on the concrete guarded docs request. -/
theorem guarded_allow_iff_clean_admin_witness :
    (middleware docsRequest (constOracle (FetchBehavior.returns 200
        (some "application/json") (some adminUserBody)))).1 = Verdict.next :=
  (guarded_allow_iff_clean_admin docsRequest
      (constOracle (FetchBehavior.returns 200 (some "application/json")
        (some adminUserBody))) rfl).mpr
    ⟨200, some "application/json", adminUserBody, rfl, rfl, rfl, rfl, rfl⟩

/-- C2: on a guarded request, every verification failure mode (transport
throw, non-successful status including 401/403, non-JSON content type,
parse failure, invalid candidate) yields the same verdict — a redirect
whose location is `/admin/login` with the `redirect` query parameter set
to the originally requested path — while the insufficient-role case
alone yields the fixed 403 instead. -/
theorem failure_modes_fold_to_redirect (request : Request)
    (fetchOracle : OutboundRequest → FetchBehavior)
    (hg : isGuarded request.pathname = true) :
    (verificationFails (fetchOracle (outboundOf request)) = true →
      (middleware request fetchOracle).1 =
        Verdict.redirect "/admin/login" request.pathname) ∧
    (insufficientRole (fetchOracle (outboundOf request)) = true →
      (middleware request fetchOracle).1 =
        Verdict.forbidden "Forbidden: Admin or Owner access required" 403) := by
  rw [middleware_guarded request fetchOracle hg]
  dsimp only
  exact ⟨fun h => decideAuth_fail _ _ h, fun h => decideAuth_insufficient _ _ h⟩

/-- C2 witness: a 401 response redirects the concrete docs request to
login with its path recorded, and a valid editor-role user gets the
fixed 403. -/
theorem failure_modes_fold_to_redirect_witness :
    (middleware docsRequest (constOracle (FetchBehavior.returns 401 none none))).1 =
      Verdict.redirect "/admin/login" "/docs/intro" ∧
    (middleware docsRequest (constOracle (FetchBehavior.returns 200
        (some "application/json") (some editorUserBody)))).1 =
      Verdict.forbidden "Forbidden: Admin or Owner access required" 403 :=
  ⟨(failure_modes_fold_to_redirect docsRequest
      (constOracle (FetchBehavior.returns 401 none none)) rfl).1 rfl,
   (failure_modes_fold_to_redirect docsRequest
      (constOracle (FetchBehavior.returns 200 (some "application/json")
        (some editorUserBody))) rfl).2 rfl⟩

/-- C4: once verification reaches a valid candidate on a guarded
request, the role comparison is exact and case-sensitive — the check
passes precisely for the strings owner and admin, a passing check gives
Allow, and any other role value (missing, null, empty, other strings
such as Admin or editor) gives the fixed plain-text 403. -/
theorem role_check_exact_case_sensitive (request : Request)
    (fetchOracle : OutboundRequest → FetchBehavior)
    (hg : isGuarded request.pathname = true)
    (status : Nat) (contentType : Option String) (responseData : Json)
    (hres : fetchOracle (outboundOf request) =
      FetchBehavior.returns status contentType (some responseData))
    (hok : statusOk status = true)
    (hct : contentTypeIsJson contentType = true)
    (hvalid : isValidUser (unwrapCandidate responseData) = true) :
    (hasAdminAccess (unwrapCandidate responseData) = true ↔
      ((unwrapCandidate responseData).getField "role" = some (Json.str "owner") ∨
       (unwrapCandidate responseData).getField "role" = some (Json.str "admin"))) ∧
    (hasAdminAccess (unwrapCandidate responseData) = true →
      (middleware request fetchOracle).1 = Verdict.next) ∧
    (hasAdminAccess (unwrapCandidate responseData) = false →
      (middleware request fetchOracle).1 =
        Verdict.forbidden "Forbidden: Admin or Owner access required" 403) := by
  refine ⟨hasAdminAccess_eq_true_iff _, ?_, ?_⟩ <;> intro hrole <;>
    rw [middleware_guarded request fetchOracle hg, hres] <;> dsimp only <;>
    rw [decideAuth_clean _ _ _ _ hok hct hvalid] <;> simp [hrole]

/-- C4 witness: the admin user is allowed through, while a bare user
whose role is the string Admin (wrong case) gets the fixed 403. -/
theorem role_check_exact_case_sensitive_witness :
    (middleware docsRequest (constOracle (FetchBehavior.returns 200
        (some "application/json") (some adminUserBody)))).1 = Verdict.next ∧
    (middleware docsRequest (constOracle (FetchBehavior.returns 200
        (some "application/json") (some mixedCaseRoleBody)))).1 =
      Verdict.forbidden "Forbidden: Admin or Owner access required" 403 :=
  ⟨(role_check_exact_case_sensitive docsRequest
      (constOracle (FetchBehavior.returns 200 (some "application/json")
        (some adminUserBody))) rfl 200 (some "application/json") adminUserBody
      rfl rfl rfl rfl).2.1 rfl,
   (role_check_exact_case_sensitive docsRequest
      (constOracle (FetchBehavior.returns 200 (some "application/json")
        (some mixedCaseRoleBody))) rfl 200 (some "application/json") mixedCaseRoleBody
      rfl rfl rfl rfl).2.2 rfl⟩

/-- C5 counterexample: the code checks only that an `id` key is present
(line 90), never that its value is non-empty, so a guarded request whose
candidate has an empty `id` and an admin role is allowed through —
refuting the claim that an empty id always yields a redirect. -/
theorem empty_id_accepted_counterexample :
    isGuarded docsRequest.pathname = true ∧
    unwrapCandidate emptyIdAdminBody = emptyIdAdminBody ∧
    emptyIdAdminBody.getField "id" = some (Json.str "") ∧
    (middleware docsRequest (constOracle (FetchBehavior.returns 200
        (some "application/json") (some emptyIdAdminBody)))).1 = Verdict.next :=
  ⟨rfl, rfl, rfl, rfl⟩

/-- C5 (amended): a candidate is accepted as a user only when it is a
truthy object carrying an `id` key (the id's value is not inspected);
for every guarded request whose parsed candidate is not an object or
lacks an `id` key, the verdict is the login redirect — never Allow,
never Forbidden, and never a crash. -/
theorem invalid_candidate_redirects (request : Request)
    (fetchOracle : OutboundRequest → FetchBehavior)
    (hg : isGuarded request.pathname = true)
    (status : Nat) (contentType : Option String) (responseData : Json)
    (hres : fetchOracle (outboundOf request) =
      FetchBehavior.returns status contentType (some responseData))
    (hinvalid : isValidUser (unwrapCandidate responseData) = false) :
    (middleware request fetchOracle).1 =
      Verdict.redirect "/admin/login" request.pathname := by
  rw [middleware_guarded request fetchOracle hg, hres]
  dsimp only
  exact decideAuth_fail _ _ (by simp [verificationFails, hinvalid])

/-- C5 witness: a candidate that lacks an `id` key (here with an admin
role, which must not matter) is redirected to login. -/
theorem invalid_candidate_redirects_witness :
    (middleware docsRequest (constOracle (FetchBehavior.returns 200
        (some "application/json") (some (Json.obj [("role", Json.str "admin")]))))).1 =
      Verdict.redirect "/admin/login" "/docs/intro" :=
  invalid_candidate_redirects docsRequest
    (constOracle (FetchBehavior.returns 200 (some "application/json")
      (some (Json.obj [("role", Json.str "admin")])))) rfl
    200 (some "application/json") (Json.obj [("role", Json.str "admin")]) rfl rfl

/-- The `user` rule misses when the field is absent or falsy; then
`fieldTruthy` is false. -/
theorem fieldTruthy_eq_false {d : Json} {k : String}
    (h : ∀ u, d.getField k = some u → u.truthy = false) :
    fieldTruthy d k = false := by
  rcases hu : d.getField k with _ | u
  · simp [fieldTruthy, hu]
  · simp [fieldTruthy, hu, h u hu]

/-- When neither the `user` rule nor the `docs` rule fires, unwrapping
an object reduces to the `doc`-then-bare tail of the cascade. -/
theorem unwrap_no_user_no_docs (fields : List (String × Json))
    (huser : fieldTruthy (Json.obj fields) "user" = false)
    (hdocs : ∀ x rest,
      (Json.obj fields).getField "docs" ≠ some (Json.arr (x :: rest))) :
    unwrapCandidate (Json.obj fields) =
      (if fieldTruthy (Json.obj fields) "doc" then
        ((Json.obj fields).getField "doc").getD Json.null
       else Json.obj fields) := by
  rcases hd : (Json.obj fields).getField "docs" with _ | (_ | b | n | s | (_ | ⟨x, rest⟩) | f)
  case some.arr.cons => exact absurd hd (hdocs x rest)
  all_goals simp [unwrapCandidate, Json.truthy, Json.isObjectType, huser, hd]

/-- C6: the candidate record is chosen from a parsed JSON object with
fixed precedence user, then docs, then doc, then the bare value: a
truthy `user` field wins; otherwise the head of a non-empty-array
`docs` field; otherwise a truthy `doc` field; otherwise the object
itself — a present-but-falsy `user` or `doc` field, and an empty or
non-array `docs` field, fall through to the next rule. -/
theorem unwrap_precedence (fields : List (String × Json)) :
    (∀ u, (Json.obj fields).getField "user" = some u → u.truthy = true →
      unwrapCandidate (Json.obj fields) = u) ∧
    ((∀ u, (Json.obj fields).getField "user" = some u → u.truthy = false) →
      ∀ x rest, (Json.obj fields).getField "docs" = some (Json.arr (x :: rest)) →
      unwrapCandidate (Json.obj fields) = x) ∧
    ((∀ u, (Json.obj fields).getField "user" = some u → u.truthy = false) →
      (∀ x rest, (Json.obj fields).getField "docs" ≠ some (Json.arr (x :: rest))) →
      ∀ v, (Json.obj fields).getField "doc" = some v → v.truthy = true →
      unwrapCandidate (Json.obj fields) = v) ∧
    ((∀ u, (Json.obj fields).getField "user" = some u → u.truthy = false) →
      (∀ x rest, (Json.obj fields).getField "docs" ≠ some (Json.arr (x :: rest))) →
      (∀ v, (Json.obj fields).getField "doc" = some v → v.truthy = false) →
      unwrapCandidate (Json.obj fields) = Json.obj fields) := by
  refine ⟨?_, ?_, ?_, ?_⟩
  · intro u hu htruthy
    have hft : fieldTruthy (Json.obj fields) "user" = true := by
      simp [fieldTruthy, hu, htruthy]
    simp [unwrapCandidate, Json.truthy, Json.isObjectType, hft, hu]
  · intro huser x rest hdocs
    simp [unwrapCandidate, Json.truthy, Json.isObjectType,
      fieldTruthy_eq_false huser, hdocs]
  · intro huser hdocs v hv htruthy
    rw [unwrap_no_user_no_docs fields (fieldTruthy_eq_false huser) hdocs]
    simp [fieldTruthy, hv, htruthy]
  · intro huser hdocs hdoc
    rw [unwrap_no_user_no_docs fields (fieldTruthy_eq_false huser) hdocs]
    simp [fieldTruthy_eq_false hdoc]

/-- C6 witness: with both present, a truthy `user` field beats a
non-empty `docs` array. -/
theorem unwrap_precedence_witness :
    unwrapCandidate (Json.obj [("user", Json.obj [("id", Json.str "1")]),
        ("docs", Json.arr [Json.str "d"])]) = Json.obj [("id", Json.str "1")] :=
  (unwrap_precedence [("user", Json.obj [("id", Json.str "1")]),
    ("docs", Json.arr [Json.str "d"])]).1 (Json.obj [("id", Json.str "1")]) rfl rfl

/-- C10: after a successful status on a guarded request, the body is
parsed exactly when the `content-type` header is present and contains the
substring application/json anywhere in its value (so parameterized
values like application/json; charset=utf-8 pass); an absent header or
any other value yields the login redirect whatever the body holds. -/
theorem content_type_gate (request : Request)
    (fetchOracle : OutboundRequest → FetchBehavior)
    (hg : isGuarded request.pathname = true)
    (status : Nat) (contentType : Option String) (body : Option Json)
    (hres : fetchOracle (outboundOf request) =
      FetchBehavior.returns status contentType body)
    (_hok : statusOk status = true) :
    (contentTypeIsJson contentType = false →
      (middleware request fetchOracle).1 =
        Verdict.redirect "/admin/login" request.pathname) ∧
    (contentTypeIsJson contentType = true ↔
      ∃ v, contentType = some v ∧ strIncludes v "application/json" = true) := by
  constructor
  · intro hct
    rw [middleware_guarded request fetchOracle hg, hres]
    dsimp only
    exact decideAuth_fail _ _ (by simp [verificationFails, hct])
  · cases contentType with
    | none => simp [contentTypeIsJson]
    | some v =>
      simp only [contentTypeIsJson, Bool.and_eq_true, bne_iff_ne, ne_eq,
        Option.some.injEq, exists_eq_left']
      constructor
      · rintro ⟨-, hinc⟩; exact hinc
      · intro hinc
        refine ⟨?_, hinc⟩
        intro he
        rw [he] at hinc
        exact absurd hinc (by decide)

/-- C10 witness: a 200 response with content type text/html is
redirected (whatever the body), while application/json; charset=utf-8
passes the gate. -/
theorem content_type_gate_witness :
    (middleware docsRequest (constOracle (FetchBehavior.returns 200
        (some "text/html") (some adminUserBody)))).1 =
      Verdict.redirect "/admin/login" "/docs/intro" ∧
    contentTypeIsJson (some "application/json; charset=utf-8") = true :=
  ⟨(content_type_gate docsRequest (constOracle (FetchBehavior.returns 200
      (some "text/html") (some adminUserBody))) rfl 200 (some "text/html")
      (some adminUserBody) rfl rfl).1 rfl,
   (content_type_gate docsRequest (constOracle (FetchBehavior.returns 200
      (some "application/json; charset=utf-8") (some adminUserBody))) rfl 200
      (some "application/json; charset=utf-8") (some adminUserBody) rfl rfl).2.mpr
    ⟨"application/json; charset=utf-8", rfl, rfl⟩⟩

/-- C9 witness: evaluating the same request twice against the same
endpoint behavior yields the same verdict. -/
theorem middleware_deterministic_witness :
    middleware docsRequest
        (constOracle (FetchBehavior.returns 200 (some "application/json")
          (some adminUserBody))) =
      middleware docsRequest
        (constOracle (FetchBehavior.returns 200 (some "application/json")
          (some adminUserBody))) :=
  middleware_deterministic docsRequest _ _ rfl

end RemoteKP
